import Mathlib

/-!
Verification of the flask application in Projects/flaskapplication/app.py.

The application registers four routes on a Flask object:
  '/'              -> hello()   returning "HELLO WORLD"
  '/about'         -> about()   returning "This is about"
  '/contact'       -> contact() returning "Contact Us"
  '/user/<name>'   -> user(name) returning render_template("index.html", name=name)

We embed the handlers as pure Lean functions, the route registrations as a
static table of patterns, and path dispatch as first-match lookup over that
table (the matching itself is performed by the external framework; it is
modelled here only so the table can be exercised).  The template file
index.html and the rendering engine are external to the source tree and are
modelled from the spec where a claim needs them.
-/

namespace FlaskApp

/-- A value returned by a handler: either a plain text body, or a call into
the external template engine carrying a template name and variable bindings. -/
inductive Response where
  | text (body : String)
  | render (template : String) (bindings : List (String × String))
  deriving DecidableEq

/-- The external render_template entry point as the handler sees it: it
receives a template identifier and the keyword bindings and produces the
engine call. -/
def render_template (template : String) (bindings : List (String × String)) : Response :=
  Response.render template bindings

/-- Handler of route '/': returns the fixed string. -/
def hello : Response := Response.text "HELLO WORLD"

/-- Handler of route '/about': returns the fixed string. -/
def about : Response := Response.text "This is about"

/-- Handler of route '/contact': returns the fixed string. -/
def contact : Response := Response.text "Contact Us"

/-- Handler of route '/user/<name>': passes name, unchanged, to
render_template under the keyword name. -/
def user (name : String) : Response :=
  render_template "index.html" [("name", name)]

/-- One segment of a registered URL pattern: a literal segment, or a path
parameter (Flask's angle-bracket converter). -/
inductive Seg where
  | lit (s : String)
  | param (v : String)
  deriving DecidableEq

/-- Identifier of one of the four registered handler functions. -/
inductive HandlerId where
  | hello | about | contact | user
  deriving DecidableEq

/-- The route table built by the four app.route decorations, in source
order.  '/' is the empty segment list; '/user/<name>' is a literal segment
followed by one parameter. -/
def routeTable : List (List Seg × HandlerId) :=
  [ ([], HandlerId.hello),
    ([Seg.lit "about"], HandlerId.about),
    ([Seg.lit "contact"], HandlerId.contact),
    ([Seg.lit "user", Seg.param "name"], HandlerId.user) ]

/-- Match a registered pattern against the segments of a request path,
returning the captured parameter values in order when it matches.  The
matching is done by the external framework; this models its documented
behaviour of literal comparison plus one-segment capture per parameter. -/
def matchPattern : List Seg → List String → Option (List String)
  | [], [] => some []
  | Seg.lit s :: ps, x :: xs => if x = s then matchPattern ps xs else none
  | Seg.param _ :: ps, x :: xs => (matchPattern ps xs).map (fun caps => x :: caps)
  | _, _ => none

/-- Invoke a handler on the captured parameter values.  Arity mismatches
cannot arise from a successful pattern match and yield none. -/
def runHandler : HandlerId → List String → Option Response
  | HandlerId.hello, [] => some hello
  | HandlerId.about, [] => some about
  | HandlerId.contact, [] => some contact
  | HandlerId.user, [n] => some (user n)
  | _, _ => none

/-- First-match dispatch over a list of routes. -/
def dispatchAux (segs : List String) : List (List Seg × HandlerId) → Option Response
  | [] => none
  | (p, h) :: rest =>
    match matchPattern p segs with
    | some caps => runHandler h caps
    | none => dispatchAux segs rest

/-- Dispatch a request path (as its list of segments) through the
application's route table. -/
def dispatch (segs : List String) : Option Response :=
  dispatchAux segs routeTable

/-- Whether a response is a fixed plain-text body. -/
def Response.isText : Response → Bool
  | Response.text _ => true
  | Response.render _ _ => false

/-- Whether a response is a call to the external rendering engine. -/
def Response.isRender : Response → Bool
  | Response.text _ => false
  | Response.render _ _ => true

/-- The bindings a response hands to the template engine (empty for a plain
text response, which invokes no engine). -/
def bindingsOf : Response → List (String × String)
  | Response.text _ => []
  | Response.render _ b => b

/-- Modelled from the spec: the template file index.html is not in the
source tree, so a template is abstract here, a sequence of pieces that are
either literal text or a reference to a named variable. -/
inductive Piece where
  | lit (s : String)
  | var (v : String)
  deriving DecidableEq

/-- Modelled from the spec: the external template-rendering engine
substitutes each variable reference by the value bound to it in the mapping
it is given; a variable the mapping does not bind is the engine's own
affair and renders as the engine's default, the empty string. -/
def renderPiece (bindings : List (String × String)) : Piece → String
  | Piece.lit s => s
  | Piece.var v => ((bindings.lookup v).getD "")

/-- Modelled from the spec: rendering a whole template concatenates the
rendering of its pieces. -/
def renderTemplate (t : List Piece) (bindings : List (String × String)) : String :=
  String.join (t.map (renderPiece bindings))

/-- An external template engine as the handler calls it: template
identifier and bindings in, rendered document or an engine failure out. -/
def Engine : Type := String → List (String × String) → Except String String

/-- The user handler with the external engine call made explicit: its body
is the single expression render_template(...), whose outcome is returned
directly, inside no try/except of any kind. -/
def userWithEngine (engine : Engine) (name : String) : Except String String :=
  engine "index.html" [("name", name)]

/-- The module-level state of the application: the app object's registered
routes, the only module-level data the handlers could reach. -/
structure AppState where
  routes : List (List Seg × HandlerId)
  deriving DecidableEq

/-- Handler of '/', with the module state threaded explicitly: its body
reads and writes no module state. -/
def helloSt (s : AppState) : Response × AppState := (hello, s)

/-- Handler of '/about', with the module state threaded explicitly. -/
def aboutSt (s : AppState) : Response × AppState := (about, s)

/-- Handler of '/contact', with the module state threaded explicitly. -/
def contactSt (s : AppState) : Response × AppState := (contact, s)

/-- Handler of '/user/<name>', with the module state threaded explicitly. -/
def userSt (s : AppState) (name : String) : Response × AppState := (user name, s)

/-- Invoke a handler under the explicit-state model. -/
def runHandlerSt (s : AppState) : HandlerId → List String → Option Response × AppState
  | HandlerId.hello, [] => (some (helloSt s).1, (helloSt s).2)
  | HandlerId.about, [] => (some (aboutSt s).1, (aboutSt s).2)
  | HandlerId.contact, [] => (some (contactSt s).1, (contactSt s).2)
  | HandlerId.user, [n] => (some (userSt s n).1, (userSt s n).2)
  | _, _ => (none, s)

/-- First-match dispatch under the explicit-state model. -/
def dispatchStAux (s : AppState) (segs : List String) :
    List (List Seg × HandlerId) → Option Response × AppState
  | [] => (none, s)
  | (p, h) :: rest =>
    match matchPattern p segs with
    | some caps => runHandlerSt s h caps
    | none => dispatchStAux s segs rest

/-- Dispatch a request through the routes the current state registers,
threading the state. -/
def dispatchSt (s : AppState) (segs : List String) : Option Response × AppState :=
  dispatchStAux s segs s.routes

theorem runHandlerSt_state (s : AppState) (h : HandlerId) (caps : List String) :
    (runHandlerSt s h caps).2 = s := by
  cases h <;> rcases caps with _ | ⟨n, _ | ⟨m, rest⟩⟩ <;>
    simp [runHandlerSt, helloSt, aboutSt, contactSt, userSt]

theorem dispatchStAux_state (s : AppState) (segs : List String)
    (l : List (List Seg × HandlerId)) : (dispatchStAux s segs l).2 = s := by
  induction l with
  | nil => rfl
  | cons ph rest ih =>
    obtain ⟨p, h⟩ := ph
    simp only [dispatchStAux]
    cases matchPattern p segs with
    | none => exact ih
    | some caps => exact runHandlerSt_state s h caps

theorem dispatchSt_state (s : AppState) (segs : List String) :
    (dispatchSt s segs).2 = s :=
  dispatchStAux_state s segs s.routes

/-- C1: for every string value of the name path parameter, dispatching
/user/name yields the response produced by rendering index.html with name
bound, under the template variable name, to exactly that string; and in
any template, every piece that references the name variable renders to
exactly that string under the bindings the handler passes. -/
theorem user_route_renders_name (name : String) (t : List Piece) :
    dispatch ["user", name] =
      some (Response.render "index.html" [("name", name)]) ∧
    ∀ p ∈ t, p = Piece.var "name" →
      renderPiece (bindingsOf (user name)) p = name := by
  refine ⟨rfl, ?_⟩
  intro p _ hp
  subst hp
  rfl

/-- Witness for C1 at name Ada and a one-piece template referencing name. -/
theorem user_route_renders_name_witness :
    dispatch ["user", "Ada"] =
      some (Response.render "index.html" [("name", "Ada")]) ∧
    renderPiece (bindingsOf (user "Ada")) (Piece.var "name") = "Ada" :=
  ⟨(user_route_renders_name "Ada" [Piece.var "name"]).1,
   (user_route_renders_name "Ada" [Piece.var "name"]).2
     (Piece.var "name") (by simp) rfl⟩

/-- C2: every request to / is answered, the handler takes no request input
and the body is exactly the fixed string HELLO WORLD. -/
theorem root_route_fixed_text :
    dispatch [] = some (Response.text "HELLO WORLD") ∧
    hello = Response.text "HELLO WORLD" ∧ (dispatch []).isSome = true := by
  exact ⟨rfl, rfl, rfl⟩

/-- C3: every request to /about is answered, the handler takes no request
input and the body is exactly the fixed string This is about. -/
theorem about_route_fixed_text :
    dispatch ["about"] = some (Response.text "This is about") ∧
    about = Response.text "This is about" ∧
    (dispatch ["about"]).isSome = true := by
  exact ⟨rfl, rfl, rfl⟩

/-- C4: every request to /contact is answered, the handler takes no request
input and the body is exactly the fixed string Contact Us. -/
theorem contact_route_fixed_text :
    dispatch ["contact"] = some (Response.text "Contact Us") ∧
    contact = Response.text "Contact Us" ∧
    (dispatch ["contact"]).isSome = true := by
  exact ⟨rfl, rfl, rfl⟩

/-- C5: issuing the same request twice, the second from the state left by
the first, yields identical responses, and no handler mutates the state
between the calls. -/
theorem dispatch_idempotent (s : AppState) (segs : List String) :
    (dispatchSt (dispatchSt s segs).2 segs).1 = (dispatchSt s segs).1 ∧
    (dispatchSt s segs).2 = s := by
  constructor
  · rw [dispatchSt_state s segs]
  · exact dispatchSt_state s segs

/-- C6: for every string used as the name segment, including the empty
string, the handler passes the value to the template engine unmodified:
the value bound to the variable name is exactly the segment. -/
theorem user_passes_name_unmodified (name : String) :
    (bindingsOf (user name)).lookup "name" = some name ∧
    (bindingsOf (user "")).lookup "name" = some "" := by
  exact ⟨rfl, rfl⟩

/-- C7: whatever failure the external engine raises on the call the user
handler makes, the handler returns it exactly as raised, and a successful
rendering is returned exactly as produced: no catching, wrapping or
translating. -/
theorem user_propagates_engine_failure (engine : Engine) (name : String) :
    (∀ e, engine "index.html" [("name", name)] = Except.error e →
      userWithEngine engine name = Except.error e) ∧
    (∀ d, engine "index.html" [("name", name)] = Except.ok d →
      userWithEngine engine name = Except.ok d) := by
  exact ⟨fun e he => he, fun d hd => hd⟩

/-- Witness for C7: an engine that fails with a missing-template error has
that exact error returned by the handler. -/
theorem user_propagates_engine_failure_witness :
    userWithEngine (fun _ _ => Except.error "TemplateNotFound") "Ada" =
      Except.error "TemplateNotFound" :=
  (user_propagates_engine_failure
      (fun _ _ => Except.error "TemplateNotFound") "Ada").1
    "TemplateNotFound" rfl

/-- C8: the registered route table is the static mapping of exactly the
four paths /, /about, /contact and /user/<name> to their handlers; the
first three handlers produce fixed plain text and the user handler alone
produces an engine-rendered document. -/
theorem route_table_is_exactly_four :
    routeTable =
      [ ([], HandlerId.hello),
        ([Seg.lit "about"], HandlerId.about),
        ([Seg.lit "contact"], HandlerId.contact),
        ([Seg.lit "user", Seg.param "name"], HandlerId.user) ] ∧
    routeTable.length = 4 ∧
    hello.isText = true ∧ about.isText = true ∧ contact.isText = true ∧
    ∀ name, (user name).isRender = true ∧ (user name).isText = false := by
  exact ⟨rfl, rfl, rfl, rfl, rfl, fun _ => ⟨rfl, rfl⟩⟩

/-- C9: under the explicit-state model of the module, every handler and
every dispatched request leaves the application state exactly as it was;
the only effect of an invocation is its returned response. -/
theorem handlers_leave_state_unchanged (s : AppState) :
    (helloSt s).2 = s ∧ (aboutSt s).2 = s ∧ (contactSt s).2 = s ∧
    (∀ name, (userSt s name).2 = s) ∧
    (∀ segs, (dispatchSt s segs).2 = s) := by
  exact ⟨rfl, rfl, rfl, fun _ => rfl, fun segs => dispatchSt_state s segs⟩

/-- C10: the substitution mapping the user handler passes to the engine
holds exactly one binding, the variable name; every other variable is
unbound in it. -/
theorem user_binds_exactly_name (name : String) :
    bindingsOf (user name) = [("name", name)] ∧
    (bindingsOf (user name)).length = 1 ∧
    ∀ v, v ≠ "name" → (bindingsOf (user name)).lookup v = none := by
  refine ⟨rfl, rfl, ?_⟩
  intro v hv
  simp only [bindingsOf, user, render_template, List.lookup]
  rw [show (v == "name") = false from beq_eq_false_iff_ne.mpr hv]

/-- Witness for C10 at name Ada and the unbound variable title. -/
theorem user_binds_exactly_name_witness :
    bindingsOf (user "Ada") = [("name", "Ada")] ∧
    (bindingsOf (user "Ada")).lookup "title" = none :=
  ⟨(user_binds_exactly_name "Ada").1,
   (user_binds_exactly_name "Ada").2.2 "title" (by decide)⟩

end FlaskApp
